import Mathlib

/-!
Shallow embedding of the shield text-fitting core of
`openstreetmap-americana` (`shieldtest.js`, second module: the shield text
layout and drawing engine).

Numbers are modelled by `ℝ`; the external graphics constants
(`Gfx.getPixelRatio()`, `Gfx.fontSizeThreshold`) and the banner geometry
constants (`ShieldDef.bannerSizeH`, `ShieldDef.bannerPadding`,
`ShieldDef.topPadding`) are parameters of the embedding, threaded through
as explicit environment records, since the claims quantify over them.
-/

noncomputable section

/-- A width/height pair, as used for both space bounds and text bounds. -/
structure Bounds where
  width : ℝ
  height : ℝ

/-- Result record of a text constraint function: `{ scale: ... }`. -/
structure TextConstraint where
  scale : ℝ

/-- External graphics environment: the device pixel ratio `PXR`
(`Gfx.getPixelRatio()`) and the reference font size
(`Gfx.fontSizeThreshold`). -/
structure GfxEnv where
  pxr : ℝ
  fontSizeThreshold : ℝ

/-- `ellipseScale(spaceBounds, textBounds)`:
`(a * b) / Math.sqrt(a * a * y0 * y0 + b * b * x0 * x0)` with
`a = spaceBounds.width`, `b = spaceBounds.height`,
`x0 = textBounds.width`, `y0 = textBounds.height`. -/
def ellipseScale (spaceBounds textBounds : Bounds) : ℝ :=
  let a := spaceBounds.width
  let b := spaceBounds.height
  let x0 := textBounds.width
  let y0 := textBounds.height
  (a * b) / Real.sqrt (a * a * y0 * y0 + b * b * x0 * x0)

/-- `ellipseTextConstraint(spaceBounds, textBounds)`. -/
def ellipseTextConstraint (spaceBounds textBounds : Bounds) : TextConstraint :=
  { scale := ellipseScale spaceBounds textBounds }

/-- `southHalfellipseTextConstraint(spaceBounds, textBounds)`: the ellipse
fit with the text bounds rotated 90 degrees, width halved:
`{ height: textBounds.width / 2, width: textBounds.height }`. -/
def southHalfellipseTextConstraint (spaceBounds textBounds : Bounds) : TextConstraint :=
  { scale := ellipseScale spaceBounds
      { width := textBounds.height, height := textBounds.width / 2 } }

/-- `rectTextConstraint(spaceBounds, textBounds)`:
`min(scaleWidth, scaleHeight)`. -/
def rectTextConstraint (spaceBounds textBounds : Bounds) : TextConstraint :=
  let scaleHeight := spaceBounds.height / textBounds.height
  let scaleWidth := spaceBounds.width / textBounds.width
  { scale := min scaleWidth scaleHeight }

/-- `roundedRectTextConstraint(spaceBounds, textBounds, radius)`: shrinks
space bounds by `radius * (2 - Math.sqrt(2))` on each axis, then delegates
to the rectangle fit. -/
def roundedRectTextConstraint (spaceBounds textBounds : Bounds) (radius : ℝ) : TextConstraint :=
  rectTextConstraint
    { width := spaceBounds.width - radius * (2 - Real.sqrt 2),
      height := spaceBounds.height - radius * (2 - Real.sqrt 2) }
    textBounds

/-- `widthOfChar(char)`: the fixed per-character width classification table,
in em units. -/
def widthOfChar (c : Char) : ℝ :=
  if c = 'I' ∨ c = '-' then 1 / 3
  else if c = '1' ∨ c = '2' ∨ c = '3' ∨ c = '4' ∨ c = '5' ∨ c = '6' ∨ c = '7' ∨
      c = '8' ∨ c = '9' ∨ c = '0' then 1 / 2.75
  else if c = 'B' ∨ c = 'C' ∨ c = 'E' ∨ c = 'H' ∨ c = 'K' ∨ c = 'L' ∨ c = 'M' ∨
      c = 'N' ∨ c = 'O' ∨ c = 'R' then 1 / 1.9
  else if c = 'W' then 1 / 1.5
  else 1 / 2.2

/-- `widthOfText(text, fontSize)`: `(text.length - 1) * 1/12` of
inter-character spacing plus the summed per-character widths, scaled by the
font size. -/
def widthOfText (text : List Char) (fontSize : ℝ) : ℝ :=
  fontSize * (((text.length : ℝ) - 1) * 1 / 12 + (text.map widthOfChar).sum)

/-- `emHeightForFontSize(fontSize)`: `fontSize * 3/4`. -/
def emHeightForFontSize (fontSize : ℝ) : ℝ :=
  fontSize * 3 / 4

/-- Padding around text; each side optional (`undefined` modelled by
`none`). -/
structure Padding where
  top : Option ℝ := none
  bottom : Option ℝ := none
  left : Option ℝ := none
  right : Option ℝ := none

/-- `padding.side * PXR || 0`: a missing padding entry contributes `0`
(`undefined * PXR` is `NaN`, which `|| 0` collapses to `0`). -/
def scaledPad (p : Option ℝ) (pxr : ℝ) : ℝ :=
  (p.map (fun t => t * pxr)).getD 0

/-- Output of the layout engine: baseline position and font size, all in
device pixels; `yBaseline` is an integer by construction
(`Math.round`). -/
structure TextLayout where
  xBaseline : ℝ
  yBaseline : ℝ
  fontPx : ℝ

/-- The available interior bounds of `layoutShieldText`:
outer bounds minus pixel-ratio-scaled padding on each axis. -/
def availBounds (env : GfxEnv) (padding : Padding) (bounds : Bounds) : Bounds :=
  { width := bounds.width - scaledPad padding.left env.pxr - scaledPad padding.right env.pxr,
    height := bounds.height - scaledPad padding.top env.pxr - scaledPad padding.bottom env.pxr }

/-- The text bounds estimated at the reference font size
(`Gfx.fontSizeThreshold`): estimated width and `3/4`-em height. -/
def estTextBounds (env : GfxEnv) (text : List Char) : Bounds :=
  { width := widthOfText text env.fontSizeThreshold,
    height := emHeightForFontSize env.fontSizeThreshold }

/-- `layoutShieldText(text, padding, bounds, textLayoutFunc, maxFontSize)`. -/
def layoutShieldText (env : GfxEnv) (text : List Char) (padding : Padding)
    (bounds : Bounds) (textLayoutFunc : Bounds → Bounds → TextConstraint)
    (maxFontSize : ℝ) : TextLayout :=
  let padTop := scaledPad padding.top env.pxr
  let padLeft := scaledPad padding.left env.pxr
  let maxFont := maxFontSize * env.pxr
  let avail := availBounds env padding bounds
  let xBaseline := padLeft + avail.width / 2
  let textConstraint := textLayoutFunc avail (estTextBounds env text)
  let fontSize := min maxFont (env.fontSizeThreshold * textConstraint.scale)
  let textHeight := emHeightForFontSize fontSize
  let yBaseline := ((round (padTop + (avail.height - textHeight) / 2 + textHeight) : ℤ) : ℝ)
  { xBaseline := xBaseline, yBaseline := yBaseline, fontPx := fontSize }

/-- Shield text definition (external, consumed): optional padding, optional
constraint function, optional max font size. -/
structure ShieldTextDef where
  padding : Option Padding := none
  textLayoutConstraint : Option (Bounds → Bounds → TextConstraint) := none
  maxFontSize : Option ℝ := none

/-- `defaultDefForLayout`: explicit zero padding on all four sides. -/
def defaultDefForLayout : ShieldTextDef :=
  { padding := some { top := some 0, bottom := some 0, left := some 0, right := some 0 } }

/-- `layoutShieldTextFromDef(text, def, bounds)`: adapter applying the
defaults (rectangle constraint, max font size 14, default padding) before
calling `layoutShieldText`. -/
def layoutShieldTextFromDef (env : GfxEnv) (text : List Char)
    (sdef : Option ShieldTextDef) (bounds : Bounds) : TextLayout :=
  let d := sdef.getD defaultDefForLayout
  let padding := d.padding.getD {}
  let textLayoutFunc := d.textLayoutConstraint.getD rectTextConstraint
  let maxFontSize : ℝ :=
    match d.maxFontSize with
    | some m => min 14 m
    | none => 14
  layoutShieldText env text padding bounds textLayoutFunc maxFontSize

/-- The drawing-relevant mutable state of a canvas 2D context. The font is
recorded by its pixel size (`ctx.font = Gfx.shieldFont(px)` stores `px`);
`shadowColor`/`shadowBlur` use `none` for the cleared (`null`) state. -/
structure CtxState where
  textAlign : String := ""
  textBaseline : String := ""
  fontPx : ℝ := 0
  fillStyle : String := ""
  strokeStyle : String := ""
  shadowColor : Option String := none
  shadowBlur : Option ℝ := none
  lineWidth : ℝ := 0

/-- A text drawing call recorded with the context state in effect at the
moment of the call. -/
inductive DrawOp where
  | fillText (text : List Char) (x y : ℝ) (st : CtxState)
  | strokeText (text : List Char) (x y : ℝ) (st : CtxState)

/-- A canvas 2D context: canvas width, current state, and the trace of draw
calls issued so far. -/
structure Ctx where
  canvasWidth : ℝ
  state : CtxState
  ops : List DrawOp

/-- `drawShieldText(ctx, text, textLayout)`: center-aligned alphabetic
fill at the layout position and font size. -/
def drawShieldText (ctx : Ctx) (text : List Char) (textLayout : TextLayout) : Ctx :=
  let st := { ctx.state with textAlign := "center" }
  let st := { st with textBaseline := "alphabetic" }
  let st := { st with fontPx := textLayout.fontPx }
  { ctx with
    state := st
    ops := ctx.ops ++ [DrawOp.fillText text textLayout.xBaseline textLayout.yBaseline st] }

/-- `drawShieldHaloText(ctx, text, textLayout)`: outline pass with the
stroke color as shadow color, zero blur, `2 * PXR` line width; shadow state
cleared after the stroke. -/
def drawShieldHaloText (env : GfxEnv) (ctx : Ctx) (text : List Char)
    (textLayout : TextLayout) : Ctx :=
  let st := { ctx.state with textAlign := "center" }
  let st := { st with textBaseline := "alphabetic" }
  let st := { st with fontPx := textLayout.fontPx }
  let st := { st with shadowColor := some st.strokeStyle }
  let st := { st with shadowBlur := some 0 }
  let st := { st with lineWidth := 2 * env.pxr }
  let ops := ctx.ops ++
    [DrawOp.strokeText text textLayout.xBaseline textLayout.yBaseline st]
  { ctx with
    state := { st with shadowColor := none, shadowBlur := none }
    ops := ops }

/-- Banner geometry constants from the shield definition catalog. -/
structure BannerEnv where
  bannerSizeH : ℝ
  bannerPadding : ℝ
  topPadding : ℝ

/-- The synthetic banner layout shared by `drawBannerText` and
`drawBannerHaloText`: full canvas width by one banner-plate height minus the
banner padding, with a null definition. -/
def bannerTextLayout (env : GfxEnv) (benv : BannerEnv) (text : List Char)
    (canvasWidth : ℝ) : TextLayout :=
  layoutShieldTextFromDef env text none
    { width := canvasWidth, height := benv.bannerSizeH - benv.bannerPadding }

/-- The vertical offset added to the computed banner layout baseline:
`bannerIndex * bannerSizeH - bannerPadding + topPadding`. -/
def bannerYOffset (benv : BannerEnv) (bannerIndex : ℝ) : ℝ :=
  bannerIndex * benv.bannerSizeH - benv.bannerPadding + benv.topPadding

/-- `drawBannerText(ctx, text, bannerIndex)`. -/
def drawBannerText (env : GfxEnv) (benv : BannerEnv) (ctx : Ctx)
    (text : List Char) (bannerIndex : ℝ) : Ctx :=
  let textLayout := bannerTextLayout env benv text ctx.canvasWidth
  let st := { ctx.state with fillStyle := "black" }
  let st := { st with fontPx := textLayout.fontPx }
  let st := { st with textBaseline := "alphabetic" }
  let st := { st with textAlign := "center" }
  { ctx with
    state := st
    ops := ctx.ops ++ [DrawOp.fillText text textLayout.xBaseline
      (textLayout.yBaseline + bannerYOffset benv bannerIndex) st] }

/-- `drawBannerHaloText(ctx, text, bannerIndex)`; `backgroundFill` is the
external `Color.backgroundFill` constant. -/
def drawBannerHaloText (env : GfxEnv) (benv : BannerEnv) (backgroundFill : String)
    (ctx : Ctx) (text : List Char) (bannerIndex : ℝ) : Ctx :=
  let textLayout := bannerTextLayout env benv text ctx.canvasWidth
  let st := { ctx.state with shadowColor := some backgroundFill }
  let st := { st with strokeStyle := backgroundFill }
  let st := { st with fontPx := textLayout.fontPx }
  let st := { st with textBaseline := "alphabetic" }
  let st := { st with textAlign := "center" }
  let st := { st with shadowBlur := some 0 }
  let st := { st with lineWidth := 2 * env.pxr }
  let ops := ctx.ops ++ [DrawOp.strokeText text textLayout.xBaseline
    (textLayout.yBaseline + bannerYOffset benv bannerIndex) st]
  { ctx with
    state := { st with shadowColor := none, shadowBlur := none }
    ops := ops }

/-! ## Theorems -/

/-- Width-table entry of the digit `'1'`. -/
lemma widthOfChar_digit1 : widthOfChar '1' = 1 / 2.75 := rfl

/-- Width-table entry of the digit `'2'`. -/
lemma widthOfChar_digit2 : widthOfChar '2' = 1 / 2.75 := rfl

/-- Width-table entry of the extra-wide letter `'W'`. -/
lemma widthOfChar_W : widthOfChar 'W' = 1 / 1.5 := rfl

/-- The estimated width of the empty string is the negative single
spacing term. -/
lemma widthOfText_nil (fontSize : ℝ) : widthOfText [] fontSize = -(fontSize / 12) := by
  simp [widthOfText]
  ring

/-- C3: the ellipse constraint computes
`scale = (a * b) / sqrt(a^2 * y0^2 + b^2 * x0^2)` where `a, b` are the
half-axes of the space and `x0, y0` the half-extents of the text (the
formula is degree-0 homogeneous, so halving all four arguments leaves the
value of the source expression unchanged); on
`spaceBounds = {width: 10, height: 5}`, `textBounds = {width: 4, height: 2}`
the scale is `50 / sqrt(100 * 4 + 25 * 16)` within tolerance `1e-9`. -/
theorem ellipseTextConstraint_formula (spaceBounds textBounds : Bounds) :
    (ellipseTextConstraint spaceBounds textBounds).scale
      = ((spaceBounds.width / 2) * (spaceBounds.height / 2))
        / Real.sqrt ((spaceBounds.width / 2) ^ 2 * (textBounds.height / 2) ^ 2
            + (spaceBounds.height / 2) ^ 2 * (textBounds.width / 2) ^ 2)
    ∧ |(ellipseTextConstraint ⟨10, 5⟩ ⟨4, 2⟩).scale
        - 50 / Real.sqrt (100 * 4 + 25 * 16)| < 1e-9 := by
  constructor
  · obtain ⟨a, b⟩ := spaceBounds
    obtain ⟨x0, y0⟩ := textBounds
    simp only [ellipseTextConstraint, ellipseScale]
    have h16 : (a / 2) ^ 2 * (y0 / 2) ^ 2 + (b / 2) ^ 2 * (x0 / 2) ^ 2
        = (1 / 16) * (a * a * y0 * y0 + b * b * x0 * x0) := by ring
    have h4 : Real.sqrt (1 / 16 : ℝ) = 1 / 4 := by
      rw [show (1 / 16 : ℝ) = (1 / 4) ^ 2 by norm_num]
      exact Real.sqrt_sq (by norm_num)
    rw [h16, Real.sqrt_mul (by norm_num : (0:ℝ) ≤ 1 / 16), h4]
    rcases eq_or_ne (Real.sqrt (a * a * y0 * y0 + b * b * x0 * x0)) 0 with h0 | h0
    · rw [h0]
      simp
    · field_simp
      ring
  · have e : (ellipseTextConstraint ⟨10, 5⟩ ⟨4, 2⟩).scale
        = 50 / Real.sqrt (100 * 4 + 25 * 16) := by
      simp only [ellipseTextConstraint, ellipseScale]
      norm_num
    rw [e, sub_self, abs_zero]
    norm_num

/-- Counterexample to C4 as stated: with positive bounds `1 × 1` and the
non-negative radius `10`, the rounded-rectangle constraint returns a
non-positive scale. -/
theorem roundedRect_scale_nonpos_counterexample :
    (0 : ℝ) < 1 ∧ (0 : ℝ) ≤ 10
    ∧ (roundedRectTextConstraint ⟨1, 1⟩ ⟨1, 1⟩ 10).scale ≤ 0 := by
  have h2 : Real.sqrt 2 ≤ 1.9 := by
    nlinarith [Real.sq_sqrt (by norm_num : (0:ℝ) ≤ 2), Real.sqrt_nonneg 2]
  refine ⟨by norm_num, by norm_num, ?_⟩
  simp only [roundedRectTextConstraint, rectTextConstraint, min_self, div_one]
  linarith

/-- C4 (amended): for strictly positive space and text bounds, the
rectangle, ellipse and south-half-ellipse constraints return a strictly
positive scale; the rounded-rectangle constraint does too, provided the
corner inset `radius * (2 - sqrt 2)` stays below both space dimensions (as
the counterexample shows, a large enough non-negative radius otherwise
drives the scale to zero or below). -/
theorem constraint_scale_pos (spaceBounds textBounds : Bounds) (radius : ℝ)
    (hsw : 0 < spaceBounds.width) (hsh : 0 < spaceBounds.height)
    (htw : 0 < textBounds.width) (hth : 0 < textBounds.height)
    (hr : 0 ≤ radius)
    (hrw : radius * (2 - Real.sqrt 2) < spaceBounds.width)
    (hrh : radius * (2 - Real.sqrt 2) < spaceBounds.height) :
    0 < (rectTextConstraint spaceBounds textBounds).scale
    ∧ 0 < (ellipseTextConstraint spaceBounds textBounds).scale
    ∧ 0 < (southHalfellipseTextConstraint spaceBounds textBounds).scale
    ∧ 0 < (roundedRectTextConstraint spaceBounds textBounds radius).scale := by
  simp only [rectTextConstraint, ellipseTextConstraint, southHalfellipseTextConstraint,
    roundedRectTextConstraint, ellipseScale]
  exact ⟨lt_min (div_pos hsw htw) (div_pos hsh hth),
    div_pos (mul_pos hsw hsh) (Real.sqrt_pos.mpr (by positivity)),
    div_pos (mul_pos hsw hsh) (Real.sqrt_pos.mpr (by positivity)),
    lt_min (div_pos (sub_pos.mpr hrw) htw) (div_pos (sub_pos.mpr hrh) hth)⟩

/-- Witness for the amended C4 at space bounds `4 × 4`, text bounds
`1 × 1`, radius `1`. -/
theorem constraint_scale_pos_witness :
    (0:ℝ) < 4 ∧ (0:ℝ) < 1 ∧ (0:ℝ) ≤ 1 ∧ (1:ℝ) * (2 - Real.sqrt 2) < 4
    ∧ (0 < (rectTextConstraint ⟨4, 4⟩ ⟨1, 1⟩).scale
      ∧ 0 < (ellipseTextConstraint ⟨4, 4⟩ ⟨1, 1⟩).scale
      ∧ 0 < (southHalfellipseTextConstraint ⟨4, 4⟩ ⟨1, 1⟩).scale
      ∧ 0 < (roundedRectTextConstraint ⟨4, 4⟩ ⟨1, 1⟩ 1).scale) := by
  have h : (1:ℝ) * (2 - Real.sqrt 2) < 4 := by
    nlinarith [Real.sqrt_nonneg 2]
  exact ⟨by norm_num, by norm_num, by norm_num, h,
    constraint_scale_pos ⟨4, 4⟩ ⟨1, 1⟩ 1 (by norm_num) (by norm_num) (by norm_num)
      (by norm_num) (by norm_num) h h⟩

/-- The rectangle constraint evaluated at the concrete layout instance used
below: env `PXR = 1`, reference font size `1`, text `"1"`, no padding,
bounds `8/11 × 3/2`. -/
lemma rect_concrete_scale :
    (rectTextConstraint (availBounds ⟨1, 1⟩ {} ⟨8/11, 3/2⟩)
        (estTextBounds ⟨1, 1⟩ [ '1' ])).scale = 2 := by
  simp [rectTextConstraint, availBounds, estTextBounds, scaledPad, widthOfText,
    widthOfChar_digit1, emHeightForFontSize]
  norm_num [min_def]

/-- The fitted font size at the same concrete instance: the text fits with
room to spare (`scale = 2`), and the engine doubles the reference size. -/
lemma layout_concrete_fontPx :
    (layoutShieldText ⟨1, 1⟩ [ '1' ] {} ⟨8/11, 3/2⟩ rectTextConstraint 14).fontPx = 2 := by
  have h : (layoutShieldText ⟨1, 1⟩ [ '1' ] {} ⟨8/11, 3/2⟩ rectTextConstraint 14).fontPx
      = min ((14:ℝ) * 1)
          (1 * (rectTextConstraint (availBounds ⟨1, 1⟩ {} ⟨8/11, 3/2⟩)
            (estTextBounds ⟨1, 1⟩ [ '1' ])).scale) := rfl
  rw [h, rect_concrete_scale]
  norm_num [min_def]

/-- Counterexample to C1 as stated: at `PXR = 1`, reference font size `1`,
text `"1"`, zero padding, bounds `8/11 × 3/2` and the rectangle constraint,
the text already fits unscaled (`scale = 2 ≥ 1`), yet the returned font
size is `2`, not `min(maxFontSize * PXR, referenceFontSize) = 1`: the
engine grows text beyond the reference size when the shape has room. -/
theorem layoutShieldText_grows_counterexample :
    1 ≤ (rectTextConstraint (availBounds ⟨1, 1⟩ {} ⟨8/11, 3/2⟩)
          (estTextBounds ⟨1, 1⟩ [ '1' ])).scale
    ∧ (layoutShieldText ⟨1, 1⟩ [ '1' ] {} ⟨8/11, 3/2⟩ rectTextConstraint 14).fontPx
      ≠ min (14 * (1:ℝ)) 1 := by
  constructor
  · rw [rect_concrete_scale]
    norm_num
  · rw [layout_concrete_fontPx]
    norm_num [min_def]

/-- C1 (amended): for text whose estimated bounds already fit unscaled
(`scale ≥ 1`), the returned font size is
`min(maxFontSize * PXR, referenceFontSize * scale)`; it is at least
`min(maxFontSize * PXR, referenceFontSize)` and (per the counterexample)
can exceed the reference size, up to the scaled `maxFontSize` ceiling. -/
theorem layoutShieldText_fit_unscaled (env : GfxEnv) (text : List Char)
    (padding : Padding) (bounds : Bounds)
    (textLayoutFunc : Bounds → Bounds → TextConstraint) (maxFontSize : ℝ)
    (hT : 0 ≤ env.fontSizeThreshold)
    (hs : 1 ≤ (textLayoutFunc (availBounds env padding bounds)
        (estTextBounds env text)).scale) :
    (layoutShieldText env text padding bounds textLayoutFunc maxFontSize).fontPx
      = min (maxFontSize * env.pxr)
          (env.fontSizeThreshold *
            (textLayoutFunc (availBounds env padding bounds) (estTextBounds env text)).scale)
    ∧ min (maxFontSize * env.pxr) env.fontSizeThreshold
      ≤ (layoutShieldText env text padding bounds textLayoutFunc maxFontSize).fontPx := by
  refine ⟨rfl, ?_⟩
  have hgrow : env.fontSizeThreshold
      ≤ env.fontSizeThreshold *
        (textLayoutFunc (availBounds env padding bounds) (estTextBounds env text)).scale :=
    le_mul_of_one_le_right hT hs
  exact min_le_min le_rfl hgrow

/-- Witness for the amended C1 at the concrete instance used for the
counterexample. -/
theorem layoutShieldText_fit_unscaled_witness :
    (0:ℝ) ≤ 1
    ∧ 1 ≤ (rectTextConstraint (availBounds ⟨1, 1⟩ {} ⟨8/11, 3/2⟩)
        (estTextBounds ⟨1, 1⟩ [ '1' ])).scale
    ∧ ((layoutShieldText ⟨1, 1⟩ [ '1' ] {} ⟨8/11, 3/2⟩ rectTextConstraint 14).fontPx
        = min ((14:ℝ) * 1)
            (1 * (rectTextConstraint (availBounds ⟨1, 1⟩ {} ⟨8/11, 3/2⟩)
              (estTextBounds ⟨1, 1⟩ [ '1' ])).scale)
      ∧ min ((14:ℝ) * 1) 1
        ≤ (layoutShieldText ⟨1, 1⟩ [ '1' ] {} ⟨8/11, 3/2⟩ rectTextConstraint 14).fontPx) := by
  have hs : (1:ℝ) ≤ (rectTextConstraint (availBounds ⟨1, 1⟩ {} ⟨8/11, 3/2⟩)
      (estTextBounds ⟨1, 1⟩ [ '1' ])).scale := by
    rw [rect_concrete_scale]
    norm_num
  exact ⟨by norm_num, hs,
    layoutShieldText_fit_unscaled ⟨1, 1⟩ [ '1' ] {} ⟨8/11, 3/2⟩ rectTextConstraint 14
      (by norm_num) hs⟩

/-- Counterexample to C6 as stated: at font size `0` the estimated widths
of `"111"` and `"WWW"` coincide (both are `0`), so the two do not differ
for every font size. -/
theorem widthOfText_zero_fontSize_counterexample :
    widthOfText [ '1', '1', '1' ] 0 = widthOfText [ 'W', 'W', 'W' ] 0 := by
  simp [widthOfText]

/-- C6 (amended): at every font size the estimated widths of `"111"` and
`"222"` agree, and at every nonzero font size both differ from the
estimated width of `"WWW"` (at font size `0` all estimated widths
degenerate to `0`). -/
theorem widthOfText_digit_equiv (fontSize : ℝ) :
    widthOfText [ '1', '1', '1' ] fontSize = widthOfText [ '2', '2', '2' ] fontSize
    ∧ (fontSize ≠ 0 →
        widthOfText [ '1', '1', '1' ] fontSize ≠ widthOfText [ 'W', 'W', 'W' ] fontSize) := by
  constructor
  · simp [widthOfText, widthOfChar_digit1, widthOfChar_digit2]
  · intro hf
    have hdiff : widthOfText [ '1', '1', '1' ] fontSize - widthOfText [ 'W', 'W', 'W' ] fontSize
        = fontSize * (3 / 2.75 - 3 / 1.5) := by
      simp [widthOfText, widthOfChar_digit1, widthOfChar_W]
      ring
    intro heq
    rw [heq, sub_self] at hdiff
    exact mul_ne_zero hf (by norm_num) hdiff.symm

/-- Witness for the amended C6 at font size `12`, discharging the nonzero
hypothesis of the second conjunct. -/
theorem widthOfText_digit_equiv_witness :
    widthOfText [ '1', '1', '1' ] 12 = widthOfText [ '2', '2', '2' ] 12
    ∧ widthOfText [ '1', '1', '1' ] 12 ≠ widthOfText [ 'W', 'W', 'W' ] 12 :=
  ⟨(widthOfText_digit_equiv 12).1, (widthOfText_digit_equiv 12).2 (by norm_num)⟩

/-- C10: the estimated width of the empty string at a positive font size is
the strictly negative `-fontSize / 12` (the spacing term counts `-1` gaps),
and `layoutShieldText` on empty text with positive bounds, a positive
reference font size and the rectangle constraint returns a layout whose
font size is negative (no error is raised). -/
theorem layoutShieldText_empty_text (env : GfxEnv) (bounds : Bounds)
    (maxFontSize fontSize : ℝ) (hf : 0 < fontSize)
    (hT : 0 < env.fontSizeThreshold) (hw : 0 < bounds.width) (hh : 0 < bounds.height) :
    widthOfText [] fontSize = -(fontSize / 12)
    ∧ widthOfText [] fontSize < 0
    ∧ (layoutShieldText env [] {} bounds rectTextConstraint maxFontSize).fontPx < 0 := by
  refine ⟨widthOfText_nil fontSize, ?_, ?_⟩
  · rw [widthOfText_nil]
    exact neg_lt_zero.mpr (by positivity)
  · have h2 : (availBounds env {} bounds).width = bounds.width := by
      simp [availBounds, scaledPad]
    have h3 : (estTextBounds env []).width = -(env.fontSizeThreshold / 12) :=
      widthOfText_nil env.fontSizeThreshold
    have hscale : (rectTextConstraint (availBounds env {} bounds)
        (estTextBounds env [])).scale < 0 := by
      have hdivneg : (availBounds env {} bounds).width / (estTextBounds env []).width < 0 := by
        rw [h2, h3]
        exact div_neg_of_pos_of_neg hw (neg_lt_zero.mpr (by positivity))
      calc (rectTextConstraint (availBounds env {} bounds) (estTextBounds env [])).scale
          ≤ (availBounds env {} bounds).width / (estTextBounds env []).width :=
            min_le_left _ _
        _ < 0 := hdivneg
    have hmul : env.fontSizeThreshold *
        (rectTextConstraint (availBounds env {} bounds) (estTextBounds env [])).scale < 0 :=
      mul_neg_of_pos_of_neg hT hscale
    calc (layoutShieldText env [] {} bounds rectTextConstraint maxFontSize).fontPx
        ≤ env.fontSizeThreshold *
            (rectTextConstraint (availBounds env {} bounds) (estTextBounds env [])).scale :=
          min_le_right _ _
      _ < 0 := hmul

/-- Witness for C10 at `PXR = 1`, reference font size `12`, bounds `5 × 5`,
max font size `14`, probe font size `1`. -/
theorem layoutShieldText_empty_text_witness :
    (0:ℝ) < 1 ∧ (0:ℝ) < 12 ∧ (0:ℝ) < 5
    ∧ (widthOfText [] 1 = -((1:ℝ) / 12)
      ∧ widthOfText [] 1 < 0
      ∧ (layoutShieldText ⟨1, 12⟩ [] {} ⟨5, 5⟩ rectTextConstraint 14).fontPx < 0) :=
  ⟨by norm_num, by norm_num, by norm_num,
    layoutShieldText_empty_text ⟨1, 12⟩ ⟨5, 5⟩ 14 1 (by norm_num) (by norm_num)
      (by norm_num) (by norm_num)⟩

/-- C2: the font size returned by `layoutShieldText` is exactly
`min(maxFontSize * PXR, fontSizeThreshold * scale)` where `scale` is the
value the constraint function returns on the padded (available) bounds and
the estimated text bounds; in particular it never exceeds the
pixel-ratio-scaled `maxFontSize`. -/
theorem layoutShieldText_fontPx_eq (env : GfxEnv) (text : List Char)
    (padding : Padding) (bounds : Bounds)
    (textLayoutFunc : Bounds → Bounds → TextConstraint) (maxFontSize : ℝ) :
    (layoutShieldText env text padding bounds textLayoutFunc maxFontSize).fontPx
      = min (maxFontSize * env.pxr)
          (env.fontSizeThreshold *
            (textLayoutFunc (availBounds env padding bounds) (estTextBounds env text)).scale)
    ∧ (layoutShieldText env text padding bounds textLayoutFunc maxFontSize).fontPx
      ≤ maxFontSize * env.pxr :=
  ⟨rfl, min_le_left _ _⟩

/-- C5: the rounded-rectangle constraint with radius `0` agrees exactly
with the plain rectangle constraint on every pair of bounds. -/
theorem roundedRect_zero_radius_eq_rect (spaceBounds textBounds : Bounds) :
    roundedRectTextConstraint spaceBounds textBounds 0
      = rectTextConstraint spaceBounds textBounds := by
  cases spaceBounds
  simp [roundedRectTextConstraint]

/-- C9: after `drawShieldHaloText` the shadow color and blur are reset to
none, and the single stroke drawn happened at the layout position with the
layout font size, with the shadow color equal to the incoming stroke color
and zero blur. -/
theorem drawShieldHaloText_shadow_reset (env : GfxEnv) (ctx : Ctx)
    (text : List Char) (textLayout : TextLayout) :
    (drawShieldHaloText env ctx text textLayout).state.shadowColor = none
    ∧ (drawShieldHaloText env ctx text textLayout).state.shadowBlur = none
    ∧ (drawShieldHaloText env ctx text textLayout).ops
      = ctx.ops ++ [DrawOp.strokeText text textLayout.xBaseline textLayout.yBaseline
          { ctx.state with
            textAlign := "center"
            textBaseline := "alphabetic"
            fontPx := textLayout.fontPx
            shadowColor := some ctx.state.strokeStyle
            shadowBlur := some 0
            lineWidth := 2 * env.pxr }] :=
  ⟨rfl, rfl, rfl⟩

/-- C7: banner text (fill and halo passes alike) is drawn at the baseline of
the layout computed for the synthetic banner area, plus
`bannerIndex * bannerSizeH - bannerPadding + topPadding`; for index `0` the
drawn baseline differs from the computed one by `-bannerPadding +
topPadding`, and each increment of the index adds one plate height. -/
theorem drawBanner_baseline_offset (env : GfxEnv) (benv : BannerEnv)
    (backgroundFill : String) (ctx : Ctx) (text : List Char) (bannerIndex : ℝ) :
    (∃ st, (drawBannerText env benv ctx text bannerIndex).ops
        = ctx.ops ++ [DrawOp.fillText text
            (bannerTextLayout env benv text ctx.canvasWidth).xBaseline
            ((bannerTextLayout env benv text ctx.canvasWidth).yBaseline
              + bannerYOffset benv bannerIndex) st])
    ∧ (∃ st, (drawBannerHaloText env benv backgroundFill ctx text bannerIndex).ops
        = ctx.ops ++ [DrawOp.strokeText text
            (bannerTextLayout env benv text ctx.canvasWidth).xBaseline
            ((bannerTextLayout env benv text ctx.canvasWidth).yBaseline
              + bannerYOffset benv bannerIndex) st])
    ∧ bannerYOffset benv bannerIndex
      = bannerIndex * benv.bannerSizeH - benv.bannerPadding + benv.topPadding
    ∧ ((bannerTextLayout env benv text ctx.canvasWidth).yBaseline
          + bannerYOffset benv 0)
        - (bannerTextLayout env benv text ctx.canvasWidth).yBaseline
      = -benv.bannerPadding + benv.topPadding
    ∧ ∀ j : ℝ, ((bannerTextLayout env benv text ctx.canvasWidth).yBaseline
          + bannerYOffset benv (j + 1))
        - ((bannerTextLayout env benv text ctx.canvasWidth).yBaseline
          + bannerYOffset benv j)
      = benv.bannerSizeH := by
  refine ⟨⟨_, rfl⟩, ⟨_, rfl⟩, rfl, ?_, fun j => ?_⟩
  · simp [bannerYOffset]
  · simp only [bannerYOffset]
    ring

/-- C8: with a null definition, `layoutShieldTextFromDef` lays out with zero
padding on all sides, the rectangle constraint, and a max font size of 14
logical units; with a supplied definition carrying a `maxFontSize`, the
effective max font size is `min 14 maxFontSize`, which never exceeds 14. -/
theorem layoutShieldTextFromDef_defaults (env : GfxEnv) (text : List Char)
    (bounds : Bounds) (d : ShieldTextDef) (m : ℝ) (hm : d.maxFontSize = some m) :
    layoutShieldTextFromDef env text none bounds
      = layoutShieldText env text
          { top := some 0, bottom := some 0, left := some 0, right := some 0 }
          bounds rectTextConstraint 14
    ∧ layoutShieldTextFromDef env text (some d) bounds
      = layoutShieldText env text (d.padding.getD {}) bounds
          (d.textLayoutConstraint.getD rectTextConstraint) (min 14 m)
    ∧ min (14 : ℝ) m ≤ 14 := by
  refine ⟨rfl, ?_, min_le_left _ _⟩
  simp only [layoutShieldTextFromDef, hm, Option.getD_some]

/-- Witness for C8 at a concrete environment, definition and bounds. -/
theorem layoutShieldTextFromDef_defaults_witness :
    ({ maxFontSize := some 20 } : ShieldTextDef).maxFontSize = some 20
    ∧ (layoutShieldTextFromDef ⟨1, 12⟩ [] none ⟨1, 1⟩
        = layoutShieldText ⟨1, 12⟩ []
            { top := some 0, bottom := some 0, left := some 0, right := some 0 }
            ⟨1, 1⟩ rectTextConstraint 14
      ∧ layoutShieldTextFromDef ⟨1, 12⟩ [] (some { maxFontSize := some 20 }) ⟨1, 1⟩
        = layoutShieldText ⟨1, 12⟩ []
            (({ maxFontSize := some 20 } : ShieldTextDef).padding.getD {}) ⟨1, 1⟩
            (({ maxFontSize := some 20 } : ShieldTextDef).textLayoutConstraint.getD
              rectTextConstraint)
            (min 14 20)
      ∧ min (14 : ℝ) 20 ≤ 14) :=
  ⟨rfl, layoutShieldTextFromDef_defaults ⟨1, 12⟩ [] ⟨1, 1⟩ { maxFontSize := some 20 } 20 rfl⟩

end
